import Mathlib

/-!
# OgreBites::ApplicationContextSDL

A shallow embedding of `Components/Bites/src/OgreApplicationContextSDL.cpp`.

* C integers are `Int`/`Nat` values with explicit reduction modulo `2^32`.
* Pointers (`SDL_Window*`, `Ogre::RenderWindow*`, `InputListener*`) are `Nat` addresses,
  `0` being `NULL`.
* Calls into SDL and into the engine are recorded, in program order, in a list of `Call`s.
  What those calls return is supplied by an environment record.
* The value of `OGRE_PLATFORM` is a parameter.
* `assert` (line 90) has no effect in a release build (`NDEBUG`); the embedding is of that build.
-/

namespace OgreBites

/-! ## Machine integers -/

/-- Conversion of an integer value to `unsigned int`: reduction modulo `2^32`. -/
def toUnsigned (i : Int) : Nat := (i % 4294967296).toNat

/-- Conversion of an `unsigned int` value to `int` (two's complement). -/
def toInt (n : Nat) : Int :=
  if n % 4294967296 < 2147483648 then ((n % 4294967296 : Nat) : Int)
  else ((n % 4294967296 : Nat) : Int) - 4294967296

/-- The `int` produced by an `int` operation whose exact result is `i` (two's complement
wrap-around). -/
def wrapInt (i : Int) : Int := toInt (toUnsigned i)

/-- Subtraction of `unsigned int`. -/
def usub (a b : Nat) : Nat := toUnsigned ((a : Int) - (b : Int))

/-- Addition of `unsigned int`. -/
def uadd (a b : Nat) : Nat := (a + b) % 4294967296

/-- Division of `unsigned int` by a non-zero constant. -/
def udiv (a b : Nat) : Nat := (a % 4294967296) / b

/-- The values of the C type `int`. -/
def IsInt32 (i : Int) : Prop := -2147483648 ≤ i ∧ i < 2147483648

instance (i : Int) : Decidable (IsInt32 i) := by unfold IsInt32; infer_instance

/-- The values of the C type `unsigned int` (`Ogre::uint32`). -/
def IsUInt32 (n : Nat) : Prop := n < 4294967296

instance (n : Nat) : Decidable (IsUInt32 n) := by unfold IsUInt32; infer_instance

/-! ## SDL and engine constants (values of the SDL2 headers) -/

/-- `SDL_INIT_VIDEO`. -/
def SDL_INIT_VIDEO : Nat := 0x20

/-- `SDL_WINDOWPOS_UNDEFINED`. -/
def SDL_WINDOWPOS_UNDEFINED : Int := 0x1FFF0000

/-- `SDL_WINDOW_FULLSCREEN`. -/
def SDL_WINDOW_FULLSCREEN : Nat := 0x1

/-- `SDL_QUIT`. -/
def SDL_QUIT : Nat := 0x100

/-- `SDL_WINDOWEVENT`. -/
def SDL_WINDOWEVENT : Nat := 0x200

/-- `SDL_WINDOWEVENT_RESIZED`. -/
def SDL_WINDOWEVENT_RESIZED : Nat := 5

/-! ## Data model -/

/-- The value of `OGRE_PLATFORM`, as far as this file branches on it. -/
inductive Platform where
  | linux
  | win32
  | apple
  | emscripten
  | other
  deriving DecidableEq

/-- `Ogre::NameValuePairList`, a `std::map<String, String>`: the value stored under each key. -/
abbrev NameValuePairList := String → Option String

/-- `std::map::insert(first, last)`: every entry of `src` whose key is not yet present is
added; entries already present are kept. -/
def NameValuePairList.insertRange (m src : NameValuePairList) : NameValuePairList :=
  fun k => match m k with
    | some v => some v
    | none => src k

/-- `m[key] = value`: the entry is created or overwritten. -/
def NameValuePairList.assign (m : NameValuePairList) (key value : String) : NameValuePairList :=
  fun k => if k = key then some value else m k

/-- `Ogre::RenderWindowDescription`: the fields this file reads or writes. -/
structure RenderWindowDescription where
  name : String
  width : Nat
  height : Nat
  useFullScreen : Bool
  miscParams : NameValuePairList

/-- `SDL_Rect`. -/
structure SDL_Rect where
  x : Int
  y : Int
  w : Int
  h : Int
  deriving DecidableEq

/-- `OgreBites::NativeWindowPair`: `{render, native}`, both pointers. -/
structure NativeWindowPair where
  render : Nat
  native : Nat
  deriving DecidableEq

/-- `ApplicationContextBase::WindowList`, a `std::vector<NativeWindowPair>`. -/
abbrev WindowList := List NativeWindowPair

/-- `SDL_Event`, a union: the common `type` field, the two fields of the `window` member that
the file reads, and the remaining bytes kept abstract. -/
structure SDL_Event where
  type : Nat
  windowEvent : Nat
  windowID : Nat
  payload : Nat
  deriving DecidableEq

/-- `OgreBites::Event`, declared outside this file: kept abstract. -/
abbrev Event := Nat

/-- The calls this file makes into SDL and into the engine. -/
inductive Call where
  | SDL_WasInit (flags : Nat)
  | SDL_InitSubSystem (flags : Nat)
  | getRenderWindowDescription
  | SDL_CreateWindow (title : String) (x y w h : Int) (flags : Nat)
  | SDL_GetWindowDisplayIndex (window : Nat)
  | SDL_GetDisplayUsableBounds (displayIndex : Int)
  | SDL_GetWindowBordersSize (window : Nat)
  | SDL_SetWindowSize (window : Nat) (w h : Int)
  | SDL_SetWindowPosition (window : Nat) (x y : Int)
  | SDL_SetWindowMinimumSize (window : Nat) (w h : Int)
  | SDL_SetWindowMaximumSize (window : Nat) (w h : Int)
  | SDL_GL_CreateContext (window : Nat)
  | SDL_GetWindowWMInfo (window : Nat)
  | createRenderWindow (p : RenderWindowDescription)
  | ApplicationContextBase_shutdown
  | SDL_DestroyWindow (window : Nat)
  | SDL_QuitSubSystem (flags : Nat)
  | SDL_PollEvent (result : Option SDL_Event)
  | queueEndRendering
  | SDL_GetWindowID (window : Nat)
  | windowMovedOrResized (render : Nat)
  | windowResized (render : Nat)
  | fireInputEvent (event : Event) (windowID : Nat)
  | getWidth (render : Nat)
  | getHeight (render : Nat)

/-! ## createWindow -/

/-- What the outside world answers during one `createWindow` call. -/
structure CreateEnv where
  /-- Return value of `SDL_WasInit(SDL_INIT_VIDEO)`. -/
  wasInit : Nat
  /-- Return value of `mRoot->getRenderSystem()->getRenderWindowDescription()`. -/
  description : RenderWindowDescription
  /-- Return value of `SDL_CreateWindow`. -/
  window : Nat
  /-- Return value of `SDL_GetWindowDisplayIndex`. -/
  displayIndex : Int
  /-- Return value of `SDL_GetDisplayUsableBounds`. -/
  boundsStatus : Int
  /-- The rectangle `SDL_GetDisplayUsableBounds` stores in `tScreen`. -/
  tScreen : SDL_Rect
  /-- The border sizes `SDL_GetWindowBordersSize` stores. -/
  tTop : Int
  tLef : Int
  tBot : Int
  tRig : Int
  /-- The native handle `SDL_GetWindowWMInfo` stores in `wmInfo.info` (x11, win or cocoa). -/
  wmWindow : Nat
  /-- Return value of `mRoot->createRenderWindow(p)`. -/
  renderWindow : Nat

/-- Lines 41-50: the description after the merge of the parameters and the choice of the
size. -/
def mergedDescription (env : CreateEnv) (name : String) (w h : Nat)
    (miscParams : NameValuePairList) : RenderWindowDescription :=
  let p := env.description
  let miscParams := miscParams.insertRange p.miscParams
  let p := { p with miscParams := miscParams }
  let p := { p with name := name }
  if w > 0 ∧ h > 0 then { p with width := w, height := h } else p

/-- The locals of lines 60-66. -/
structure Geometry where
  tMaxW : Nat
  tMaxH : Nat
  tW : Int
  tH : Int
  tX : Nat
  tY : Nat
  deriving DecidableEq

/-- Lines 60-66: the clamped size and the centred position. `width` and `height` are
`p.width` and `p.height`. -/
def windowGeometry (width height : Nat) (tScreen : SDL_Rect) (tTop tLef tBot tRig : Int) :
    Geometry :=
  let tMaxW : Nat := toUnsigned (wrapInt (wrapInt (tScreen.w - tLef) - tRig))
  let tMaxH : Nat := toUnsigned (wrapInt (wrapInt (tScreen.h - tTop) - tBot))
  let tW : Int := toInt (if width > tMaxW then tMaxW else width)
  let tH : Int := toInt (if height > tMaxH then tMaxH else height)
  let tX : Nat := uadd (uadd (udiv (usub tMaxW (toUnsigned tW)) 2) (toUnsigned tScreen.x))
    (toUnsigned tLef)
  let tY : Nat := uadd (uadd (udiv (usub tMaxH (toUnsigned tH)) 2) (toUnsigned tScreen.y))
    (toUnsigned tTop)
  { tMaxW := tMaxW, tMaxH := tMaxH, tW := tW, tH := tH, tX := tX, tY := tY }

/-- Lines 52-75: the creation of the native window. -/
def createNative (env : CreateEnv) (p : RenderWindowDescription) (name : String) : List Call :=
  if !p.useFullScreen then
    [Call.SDL_CreateWindow name SDL_WINDOWPOS_UNDEFINED SDL_WINDOWPOS_UNDEFINED 1 1 0,
     Call.SDL_GetWindowDisplayIndex env.window,
     Call.SDL_GetDisplayUsableBounds env.displayIndex] ++
    (if env.boundsStatus ≥ 0 then
      let g := windowGeometry p.width p.height env.tScreen env.tTop env.tLef env.tBot env.tRig
      [Call.SDL_GetWindowBordersSize env.window,
       Call.SDL_SetWindowSize env.window g.tW g.tH,
       Call.SDL_SetWindowPosition env.window (toInt g.tX) (toInt g.tY),
       Call.SDL_SetWindowMinimumSize env.window 400 400,
       Call.SDL_SetWindowMaximumSize env.window (toInt g.tMaxW) (toInt g.tMaxH)]
    else [])
  else
    [Call.SDL_CreateWindow name SDL_WINDOWPOS_UNDEFINED SDL_WINDOWPOS_UNDEFINED
      (toInt p.width) (toInt p.height) SDL_WINDOW_FULLSCREEN]

/-- Lines 77-83: the GL context on Emscripten, the window-manager information elsewhere. -/
def queryNative (plat : Platform) (env : CreateEnv) : List Call :=
  if plat = Platform.emscripten then [Call.SDL_GL_CreateContext env.window]
  else [Call.SDL_GetWindowWMInfo env.window]

/-- The key under which lines 85-92 store the native handle, if the platform has one. -/
def handleKey : Platform → Option String
  | Platform.linux => some "parentWindowHandle"
  | Platform.win32 => some "externalWindowHandle"
  | Platform.apple => some "externalWindowHandle"
  | Platform.emscripten => none
  | Platform.other => none

/-- Lines 85-92: `p.miscParams[key] = StringConverter::toString(size_t(handle))`. -/
def setHandle (plat : Platform) (env : CreateEnv) (m : NameValuePairList) : NameValuePairList :=
  match handleKey plat with
  | some key => m.assign key (Nat.repr env.wmWindow)
  | none => m

/-- Lines 94-98: additional windows reuse the GL context (also the first on Emscripten). -/
def setContext (plat : Platform) (mWindows : WindowList) (m : NameValuePairList) :
    NameValuePairList :=
  if !mWindows.isEmpty || plat = Platform.emscripten then m.assign "currentGLContext" "true"
  else m

/-- The description given to `Root::createRenderWindow` (line 100). -/
def finalDescription (plat : Platform) (env : CreateEnv) (mWindows : WindowList)
    (name : String) (w h : Nat) (miscParams : NameValuePairList) : RenderWindowDescription :=
  let p := mergedDescription env name w h miscParams
  { p with miscParams := setContext plat mWindows (setHandle plat env p.miscParams) }

/-- What a `createWindow` call leaves behind. -/
structure CreateResult where
  /-- The returned pair. -/
  ret : NativeWindowPair
  /-- The member `mWindows` afterwards. -/
  mWindows : WindowList
  /-- The calls made, in order. -/
  trace : List Call

/-- `ApplicationContextSDL::createWindow` (lines 33-103). -/
def createWindow (plat : Platform) (env : CreateEnv) (mWindows : WindowList)
    (name : String) (w h : Nat) (miscParams : NameValuePairList) : CreateResult :=
  let init : List Call :=
    Call.SDL_WasInit SDL_INIT_VIDEO ::
      (if env.wasInit = 0 then [Call.SDL_InitSubSystem SDL_INIT_VIDEO] else [])
  let p := mergedDescription env name w h miscParams
  let native := createNative env p name
  let p := finalDescription plat env mWindows name w h miscParams
  let ret : NativeWindowPair := { render := env.renderWindow, native := env.window }
  { ret := ret
    mWindows := mWindows ++ [ret]
    trace := init ++ [Call.getRenderWindowDescription] ++ native ++ queryNative plat env ++
      [Call.createRenderWindow p] }

/-! ## Input listeners -/

/-- The member `mInputListeners`, a `std::set<std::pair<uint32_t, InputListener*>>`. -/
abbrev InputListenerList := Finset (Nat × Nat)

/-- `ApplicationContextSDL::addInputListener` (lines 22-25). `windowID` is `SDL_GetWindowID`. -/
def addInputListener (windowID : Nat → Nat) (mInputListeners : InputListenerList)
    (win lis : Nat) : InputListenerList :=
  insert (windowID win, lis) mInputListeners

/-- `ApplicationContextSDL::removeInputListener` (lines 28-31). -/
def removeInputListener (windowID : Nat → Nat) (mInputListeners : InputListenerList)
    (win lis : Nat) : InputListenerList :=
  mInputListeners.erase (windowID win, lis)

/-! ## shutdown -/

/-- The loop of lines 117-121. -/
def destroyLoop : WindowList → List Call
  | [] => []
  | it :: rest =>
    (if it.native ≠ 0 then [Call.SDL_DestroyWindow it.native] else []) ++ destroyLoop rest

/-- What a `shutdown` call leaves behind. -/
structure ShutdownResult where
  /-- The member `mWindows` afterwards. -/
  mWindows : WindowList
  /-- The calls made, in order. -/
  trace : List Call

/-- `ApplicationContextSDL::shutdown` (lines 113-127). `ApplicationContextBase::shutdown` is
defined outside this file; it is recorded as one call and, as the loop after it presupposes,
taken to leave `mWindows` as it is. -/
def shutdown (mWindows : WindowList) : ShutdownResult :=
  { mWindows := []
    trace := Call.ApplicationContextBase_shutdown :: destroyLoop mWindows ++
      (if !mWindows.isEmpty then [Call.SDL_QuitSubSystem SDL_INIT_VIDEO] else []) }

/-! ## pollEvents -/

/-- What the outside world answers during one `pollEvents` call. -/
structure PollEnv where
  /-- `SDL_GetWindowID`. -/
  windowID : Nat → Nat
  /-- `convert` of `SDLInputMapping.h`. -/
  convert : SDL_Event → Event
  /-- `Ogre::RenderWindow::getWidth`. -/
  getWidth : Nat → Nat
  /-- `Ogre::RenderWindow::getHeight`. -/
  getHeight : Nat → Nat

/-- `SDL_PollEvent`: the next pending event, if any, is removed from the queue. -/
def SDL_PollEvent : List SDL_Event → Option SDL_Event × List SDL_Event
  | [] => (none, [])
  | event :: rest => (some event, rest)

/-- The loop of lines 149-157. -/
def resizeLoop (env : PollEnv) (event : SDL_Event) : WindowList → List Call
  | [] => []
  | it :: rest =>
    Call.SDL_GetWindowID it.native ::
      (if event.windowID ≠ env.windowID it.native then []
       else [Call.windowMovedOrResized it.render, Call.windowResized it.render]) ++
      resizeLoop env event rest

/-- The `switch` of lines 140-162. -/
def handleEvent (env : PollEnv) (mWindows : WindowList) (event : SDL_Event) : List Call :=
  if event.type = SDL_QUIT then [Call.queueEndRendering]
  else if event.type = SDL_WINDOWEVENT then
    if event.windowEvent ≠ SDL_WINDOWEVENT_RESIZED then []
    else resizeLoop env event mWindows
  else [Call.fireInputEvent (env.convert event) event.windowID]

/-- The `while` loop of lines 138-163: the calls made and the queue left. -/
def eventLoop (env : PollEnv) (mWindows : WindowList) :
    List SDL_Event → List Call × List SDL_Event
  | [] => ([Call.SDL_PollEvent (SDL_PollEvent []).1], (SDL_PollEvent []).2)
  | event :: rest =>
    let r := eventLoop env mWindows rest
    (Call.SDL_PollEvent (SDL_PollEvent (event :: rest)).1 ::
      handleEvent env mWindows event ++ r.1, r.2)

/-- Lines 165-172: the workaround compiled on macOS only. -/
def appleWorkaround (env : PollEnv) : WindowList → List Call
  | [] => []
  | win :: rest =>
    [Call.getWidth win.render, Call.getHeight win.render,
     Call.SDL_SetWindowSize win.native (toInt (env.getWidth win.render))
       (toInt (env.getHeight win.render)),
     Call.windowMovedOrResized win.render] ++ appleWorkaround env rest

/-- What a `pollEvents` call leaves behind. -/
structure PollResult where
  /-- The events still pending. -/
  queue : List SDL_Event
  /-- The calls made, in order. -/
  trace : List Call

/-- `ApplicationContextSDL::pollEvents` (lines 129-173). -/
def pollEvents (plat : Platform) (env : PollEnv) (mWindows : WindowList)
    (queue : List SDL_Event) : PollResult :=
  if mWindows.isEmpty then { queue := queue, trace := [] }
  else
    let r := eventLoop env mWindows queue
    { queue := r.2
      trace := r.1 ++ (if plat = Platform.apple then appleWorkaround env mWindows else []) }

/-! ## Sequences of createWindow and shutdown calls -/

/-- One call on the application context. -/
inductive Op where
  | createWindow (env : CreateEnv) (name : String) (w h : Nat) (miscParams : NameValuePairList)
  | shutdown

/-- The member `mWindows` after one call. -/
def Op.apply (plat : Platform) (mWindows : WindowList) : Op → WindowList
  | Op.createWindow env name w h miscParams =>
    (OgreBites.createWindow plat env mWindows name w h miscParams).mWindows
  | Op.shutdown => (OgreBites.shutdown mWindows).mWindows

/-- The member `mWindows` after a sequence of calls. -/
def runOps (plat : Platform) (mWindows : WindowList) (ops : List Op) : WindowList :=
  ops.foldl (Op.apply plat) mWindows

/-- The render windows that `Root::createRenderWindow` returned during a sequence of calls. -/
def createdRenderWindows : List Op → List Nat
  | [] => []
  | Op.createWindow env _ _ _ _ :: rest => env.renderWindow :: createdRenderWindows rest
  | Op.shutdown :: rest => createdRenderWindows rest

/-- The number of `createWindow` calls since the last `shutdown`, counted on from `n`. -/
def callsSinceShutdown (n : Nat) : List Op → Nat
  | [] => n
  | Op.createWindow _ _ _ _ _ :: rest => callsSinceShutdown (n + 1) rest
  | Op.shutdown :: rest => callsSinceShutdown 0 rest

/-! ## Observations on traces -/

/-- The arguments of an `SDL_CreateWindow` call. -/
def Call.createArgs : Call → Option (String × Int × Int × Int × Int × Nat)
  | Call.SDL_CreateWindow t x y w h f => some (t, x, y, w, h, f)
  | _ => none

/-- The arguments of the `SDL_CreateWindow` calls of a trace. -/
def createCalls (trace : List Call) : List (String × Int × Int × Int × Int × Nat) :=
  trace.filterMap Call.createArgs

/-- The arguments of an `SDL_SetWindowSize` call. -/
def Call.sizeArgs : Call → Option (Nat × Int × Int)
  | Call.SDL_SetWindowSize win w h => some (win, w, h)
  | _ => none

/-- The arguments of the `SDL_SetWindowSize` calls of a trace. -/
def sizeCalls (trace : List Call) : List (Nat × Int × Int) :=
  trace.filterMap Call.sizeArgs

/-- The size a call hands to SDL for a window, if it is `SDL_CreateWindow` or
`SDL_SetWindowSize`. -/
def Call.sizeGiven : Call → Option (Int × Int)
  | Call.SDL_CreateWindow _ _ _ w h _ => some (w, h)
  | Call.SDL_SetWindowSize _ w h => some (w, h)
  | _ => none

/-- The sizes handed to SDL in a trace, in order. -/
def sizesGiven (trace : List Call) : List (Int × Int) :=
  trace.filterMap Call.sizeGiven

/-- The arguments of an `SDL_SetWindowPosition` call. -/
def Call.positionArgs : Call → Option (Nat × Int × Int)
  | Call.SDL_SetWindowPosition win x y => some (win, x, y)
  | _ => none

/-- The arguments of the `SDL_SetWindowPosition` calls of a trace. -/
def positionCalls (trace : List Call) : List (Nat × Int × Int) :=
  trace.filterMap Call.positionArgs

/-- The argument of a `Root::createRenderWindow` call. -/
def Call.renderArg : Call → Option RenderWindowDescription
  | Call.createRenderWindow p => some p
  | _ => none

/-- The descriptions given to `Root::createRenderWindow` in a trace. -/
def renderCalls (trace : List Call) : List RenderWindowDescription :=
  trace.filterMap Call.renderArg

/-- The argument of an `SDL_DestroyWindow` call. -/
def Call.destroyArg : Call → Option Nat
  | Call.SDL_DestroyWindow win => some win
  | _ => none

/-- The arguments of the `SDL_DestroyWindow` calls of a trace. -/
def destroyCalls (trace : List Call) : List Nat :=
  trace.filterMap Call.destroyArg

/-- The argument of an `SDL_QuitSubSystem` call. -/
def Call.quitArg : Call → Option Nat
  | Call.SDL_QuitSubSystem flags => some flags
  | _ => none

/-- The arguments of the `SDL_QuitSubSystem` calls of a trace. -/
def quitCalls (trace : List Call) : List Nat :=
  trace.filterMap Call.quitArg

/-- The result of an `SDL_PollEvent` call. -/
def Call.pollResult : Call → Option (Option SDL_Event)
  | Call.SDL_PollEvent r => some r
  | _ => none

/-- The results of the `SDL_PollEvent` calls of a trace. -/
def pollCalls (trace : List Call) : List (Option SDL_Event) :=
  trace.filterMap Call.pollResult

/-- The sizing and centring calls of lines 59-70. -/
def Call.isPlacement : Call → Bool
  | Call.SDL_GetWindowBordersSize _ => true
  | Call.SDL_SetWindowSize _ _ _ => true
  | Call.SDL_SetWindowPosition _ _ _ => true
  | Call.SDL_SetWindowMinimumSize _ _ _ => true
  | Call.SDL_SetWindowMaximumSize _ _ _ => true
  | _ => false

/-- The engine callbacks of `pollEvents`. -/
inductive Callback where
  | queueEndRendering
  | windowMovedOrResized (render : Nat)
  | windowResized (render : Nat)
  | fireInputEvent (event : Event) (windowID : Nat)
  deriving DecidableEq

/-- The engine callback a call is, if any. -/
def Call.callback : Call → Option Callback
  | Call.queueEndRendering => some Callback.queueEndRendering
  | Call.windowMovedOrResized r => some (Callback.windowMovedOrResized r)
  | Call.windowResized r => some (Callback.windowResized r)
  | Call.fireInputEvent e i => some (Callback.fireInputEvent e i)
  | _ => none

/-- The engine callbacks of a trace, in order. -/
def callbacks (trace : List Call) : List Callback :=
  trace.filterMap Call.callback

/-- The callbacks one event is to trigger, as the specification words them: a quit event ends
the rendering, a resize event notifies the render window of every entry whose window id is
the event's, any other window event does nothing, every other event is converted and fired
with the event's window id. -/
def expectedCallbacks (env : PollEnv) (mWindows : WindowList) (event : SDL_Event) :
    List Callback :=
  if event.type = SDL_QUIT then [Callback.queueEndRendering]
  else if event.type = SDL_WINDOWEVENT then
    if event.windowEvent = SDL_WINDOWEVENT_RESIZED then
      (mWindows.filter (fun it => env.windowID it.native = event.windowID)).flatMap
        (fun it => [Callback.windowMovedOrResized it.render, Callback.windowResized it.render])
    else []
  else [Callback.fireInputEvent (env.convert event) event.windowID]

/-! ## The geometry in exact integers -/

/-- The width left for the window: the usable width minus the left and right borders. -/
def exactMaxW (env : CreateEnv) : Int := env.tScreen.w - env.tLef - env.tRig

/-- The height left for the window: the usable height minus the top and bottom borders. -/
def exactMaxH (env : CreateEnv) : Int := env.tScreen.h - env.tTop - env.tBot

/-- The requested width, clamped. -/
def exactW (env : CreateEnv) (p : RenderWindowDescription) : Int :=
  min (p.width : Int) (exactMaxW env)

/-- The requested height, clamped. -/
def exactH (env : CreateEnv) (p : RenderWindowDescription) : Int :=
  min (p.height : Int) (exactMaxH env)

/-- The horizontal position that centres the bordered window. -/
def exactX (env : CreateEnv) (p : RenderWindowDescription) : Int :=
  env.tScreen.x + env.tLef + (exactMaxW env - exactW env p) / 2

/-- The vertical position that centres the bordered window. -/
def exactY (env : CreateEnv) (p : RenderWindowDescription) : Int :=
  env.tScreen.y + env.tTop + (exactMaxH env - exactH env p) / 2

/-- The effective requested size: `(w, h)` when both are positive, the size of the render
system's description otherwise. -/
def effectiveSize (env : CreateEnv) (w h : Nat) : Nat × Nat :=
  if w > 0 ∧ h > 0 then (w, h) else (env.description.width, env.description.height)

/-! ## Sample inputs -/

/-- The empty parameter list. -/
def noParams : NameValuePairList := fun _ => none

/-- A windowed 800 x 600 description with one render-system parameter. -/
def sampleDescription : RenderWindowDescription :=
  { name := ""
    width := 800
    height := 600
    useFullScreen := false
    miscParams := fun k => if k = "FSAA" then some "0" else none }

/-- A 1920 x 1053 usable area below a 27 pixel panel, and a 37 pixel title bar. -/
def sampleEnv : CreateEnv :=
  { wasInit := 0
    description := sampleDescription
    window := 4096
    displayIndex := 0
    boundsStatus := 0
    tScreen := { x := 0, y := 27, w := 1920, h := 1053 }
    tTop := 37
    tLef := 0
    tBot := 0
    tRig := 0
    wmWindow := 77
    renderWindow := 8192 }

/-- The sample environment with a failing `SDL_GetDisplayUsableBounds`. -/
def failedBoundsEnv : CreateEnv := { sampleEnv with boundsStatus := -1 }

/-- The sample environment with a fullscreen description. -/
def fullScreenEnv : CreateEnv :=
  { sampleEnv with description := { sampleDescription with useFullScreen := true } }

/-- A monitor to the left of the primary one (negative origin) and a window with borders on
all four sides. -/
def leftMonitorEnv : CreateEnv :=
  { sampleEnv with
    tScreen := { x := -1920, y := 0, w := 1920, h := 1080 }
    tTop := 37
    tLef := 1
    tBot := 1
    tRig := 1 }

/-- Three windows, the second without a native handle. -/
def sampleWindows : WindowList :=
  [{ render := 8192, native := 4096 }, { render := 8200, native := 0 },
   { render := 8208, native := 4112 }]

/-- The window id SDL reports for a handle in the samples: the address divided by 16. -/
def sampleWindowID (win : Nat) : Nat := win / 16

/-- A sample environment for `pollEvents`. -/
def samplePollEnv : PollEnv :=
  { windowID := sampleWindowID
    convert := fun event => event.type + event.payload
    getWidth := fun _ => 800
    getHeight := fun _ => 600 }

/-- A resize of window 256, a key press and a quit request. -/
def sampleQueue : List SDL_Event :=
  [{ type := SDL_WINDOWEVENT, windowEvent := SDL_WINDOWEVENT_RESIZED, windowID := 256,
     payload := 0 },
   { type := 0x300, windowEvent := 0, windowID := 257, payload := 27 },
   { type := SDL_QUIT, windowEvent := 0, windowID := 0, payload := 0 }]

/-- Two windows are created, everything is shut down, and a third window is created. -/
def sampleOps : List Op :=
  [Op.createWindow sampleEnv "first" 800 600 noParams,
   Op.createWindow { sampleEnv with window := 4112, renderWindow := 8208 } "second" 0 0 noParams,
   Op.shutdown,
   Op.createWindow { sampleEnv with window := 4128, renderWindow := 8224 } "third" 640 480
     noParams]

/-- Listeners 1 and 2 on window id 256 and listener 1 on window id 257. -/
def sampleListeners : InputListenerList := {(256, 1), (256, 2), (257, 1)}

/-- Caller parameters that set two keys, one of them also set by the render system. -/
def sampleParams : NameValuePairList :=
  fun k => if k = "FSAA" then some "4" else if k = "vsync" then some "true" else none

/-! ## Machine integer facts -/

theorem toUnsigned_eq (i : Int) (h0 : 0 ≤ i) (h1 : i < 4294967296) :
    ((toUnsigned i : Nat) : Int) = i := by
  unfold toUnsigned
  omega

theorem toInt_eq (n : Nat) (h : n < 2147483648) : toInt n = (n : Int) := by
  unfold toInt
  split_ifs <;> omega

theorem wrapInt_eq (i : Int) (h : IsInt32 i) : wrapInt i = i := by
  unfold IsInt32 at h
  unfold wrapInt toInt toUnsigned
  split_ifs <;> omega

theorem toInt_toUnsigned_eq (i : Int) (h : IsInt32 i) : toInt (toUnsigned i) = i :=
  wrapInt_eq i h

/-- The maximal size of lines 60-61 when the borders fit into the screen. -/
theorem tMax_eq (s l r : Int) (hs : s < 2147483648) (hl : 0 ≤ l) (hr : 0 ≤ r)
    (hfit : l + r ≤ s) :
    ((toUnsigned (wrapInt (wrapInt (s - l) - r)) : Nat) : Int) = s - l - r := by
  have h1 : wrapInt (s - l) = s - l := wrapInt_eq _ (by unfold IsInt32; omega)
  have h2 : wrapInt (s - l - r) = s - l - r := wrapInt_eq _ (by unfold IsInt32; omega)
  rw [h1, h2]
  exact toUnsigned_eq _ (by omega) (by omega)

/-- The clamped size of lines 62-63. -/
theorem clamp_eq (width m : Nat) (hm : m < 2147483648) :
    toInt (if width > m then m else width) = min (width : Int) (m : Int) := by
  split_ifs with h
  · rw [toInt_eq _ hm]; omega
  · rw [toInt_eq _ (by omega)]; omega

/-- The position of lines 65-66 when the exact value is an `int`. -/
theorem center_eq (m : Nat) (t x l : Int) (hm : m < 2147483648) (ht0 : 0 ≤ t)
    (ht : t ≤ (m : Int)) (hfit : IsInt32 (x + l + ((m : Int) - t) / 2)) :
    toInt (uadd (uadd (udiv (usub m (toUnsigned t)) 2) (toUnsigned x)) (toUnsigned l)) =
      x + l + ((m : Int) - t) / 2 := by
  unfold IsInt32 at hfit
  have h1 : ((toUnsigned t : Nat) : Int) = t := toUnsigned_eq t ht0 (by omega)
  have h2 : ((usub m (toUnsigned t) : Nat) : Int) = (m : Int) - t := by
    unfold usub
    rw [h1]
    exact toUnsigned_eq _ (by omega) (by omega)
  have h3 : ((udiv (usub m (toUnsigned t)) 2 : Nat) : Int) = ((m : Int) - t) / 2 := by
    unfold udiv
    omega
  generalize udiv (usub m (toUnsigned t)) 2 = d at h3
  unfold uadd toInt toUnsigned
  split_ifs <;> omega

/-! ## createWindow: the trace -/

theorem createWindow_trace (plat : Platform) (env : CreateEnv) (mWindows : WindowList)
    (name : String) (w h : Nat) (miscParams : NameValuePairList) :
    (createWindow plat env mWindows name w h miscParams).trace =
      Call.SDL_WasInit SDL_INIT_VIDEO ::
        (if env.wasInit = 0 then [Call.SDL_InitSubSystem SDL_INIT_VIDEO] else []) ++
      [Call.getRenderWindowDescription] ++
      createNative env (mergedDescription env name w h miscParams) name ++
      queryNative plat env ++
      [Call.createRenderWindow (finalDescription plat env mWindows name w h miscParams)] :=
  rfl

theorem mergedDescription_useFullScreen (env : CreateEnv) (name : String) (w h : Nat)
    (miscParams : NameValuePairList) :
    (mergedDescription env name w h miscParams).useFullScreen = env.description.useFullScreen := by
  unfold mergedDescription
  split_ifs <;> rfl

theorem mergedDescription_size (env : CreateEnv) (name : String) (w h : Nat)
    (miscParams : NameValuePairList) :
    ((mergedDescription env name w h miscParams).width,
      (mergedDescription env name w h miscParams).height) = effectiveSize env w h := by
  unfold mergedDescription effectiveSize
  split_ifs <;> rfl

theorem mergedDescription_miscParams (env : CreateEnv) (name : String) (w h : Nat)
    (miscParams : NameValuePairList) :
    (mergedDescription env name w h miscParams).miscParams =
      miscParams.insertRange env.description.miscParams := by
  unfold mergedDescription
  split_ifs <;> rfl

theorem renderCalls_createWindow (plat : Platform) (env : CreateEnv) (mWindows : WindowList)
    (name : String) (w h : Nat) (miscParams : NameValuePairList) :
    renderCalls (createWindow plat env mWindows name w h miscParams).trace =
      [finalDescription plat env mWindows name w h miscParams] := by
  rw [createWindow_trace]
  unfold renderCalls createNative queryNative
  split_ifs <;> simp [List.filterMap_append, Call.renderArg]

/-- The values of lines 60-66 under the preconditions of the clamp. -/
theorem windowGeometry_exact (env : CreateEnv) (p : RenderWindowDescription)
    (hsw : env.tScreen.w < 2147483648) (hsh : env.tScreen.h < 2147483648)
    (htop : 0 ≤ env.tTop) (hlef : 0 ≤ env.tLef) (hbot : 0 ≤ env.tBot) (hrig : 0 ≤ env.tRig)
    (hfitW : env.tLef + env.tRig ≤ env.tScreen.w)
    (hfitH : env.tTop + env.tBot ≤ env.tScreen.h) :
    let g := windowGeometry p.width p.height env.tScreen env.tTop env.tLef env.tBot env.tRig
    (g.tMaxW : Int) = exactMaxW env ∧ (g.tMaxH : Int) = exactMaxH env ∧
      g.tW = exactW env p ∧ g.tH = exactH env p := by
  intro g
  have hW : (g.tMaxW : Int) = exactMaxW env := tMax_eq _ _ _ hsw hlef hrig hfitW
  have hH : (g.tMaxH : Int) = exactMaxH env := tMax_eq _ _ _ hsh htop hbot hfitH
  have hW2 : g.tMaxW < 2147483648 := by unfold exactMaxW at hW; omega
  have hH2 : g.tMaxH < 2147483648 := by unfold exactMaxH at hH; omega
  refine ⟨hW, hH, ?_, ?_⟩
  · unfold exactW; rw [← hW]; exact clamp_eq p.width g.tMaxW hW2
  · unfold exactH; rw [← hH]; exact clamp_eq p.height g.tMaxH hH2

theorem sizeCalls_createWindow (plat : Platform) (env : CreateEnv) (mWindows : WindowList)
    (name : String) (w h : Nat) (miscParams : NameValuePairList) :
    sizeCalls (createWindow plat env mWindows name w h miscParams).trace =
      if env.description.useFullScreen = true then []
      else if 0 ≤ env.boundsStatus then
        let p := mergedDescription env name w h miscParams
        let g := windowGeometry p.width p.height env.tScreen env.tTop env.tLef env.tBot env.tRig
        [(env.window, g.tW, g.tH)]
      else [] := by
  rw [createWindow_trace]
  unfold sizeCalls createNative queryNative
  rw [mergedDescription_useFullScreen]
  split_ifs <;> simp_all [List.filterMap_append, Call.sizeArgs]

theorem positionCalls_createWindow (plat : Platform) (env : CreateEnv) (mWindows : WindowList)
    (name : String) (w h : Nat) (miscParams : NameValuePairList) :
    positionCalls (createWindow plat env mWindows name w h miscParams).trace =
      if env.description.useFullScreen = true then []
      else if 0 ≤ env.boundsStatus then
        let p := mergedDescription env name w h miscParams
        let g := windowGeometry p.width p.height env.tScreen env.tTop env.tLef env.tBot env.tRig
        [(env.window, toInt g.tX, toInt g.tY)]
      else [] := by
  rw [createWindow_trace]
  unfold positionCalls createNative queryNative
  rw [mergedDescription_useFullScreen]
  split_ifs <;> simp_all [List.filterMap_append, Call.positionArgs]

theorem createCalls_createWindow (plat : Platform) (env : CreateEnv) (mWindows : WindowList)
    (name : String) (w h : Nat) (miscParams : NameValuePairList) :
    createCalls (createWindow plat env mWindows name w h miscParams).trace =
      if env.description.useFullScreen = true then
        let p := mergedDescription env name w h miscParams
        [(name, SDL_WINDOWPOS_UNDEFINED, SDL_WINDOWPOS_UNDEFINED, toInt p.width, toInt p.height,
          SDL_WINDOW_FULLSCREEN)]
      else [(name, SDL_WINDOWPOS_UNDEFINED, SDL_WINDOWPOS_UNDEFINED, 1, 1, 0)] := by
  rw [createWindow_trace]
  unfold createCalls createNative queryNative
  rw [mergedDescription_useFullScreen]
  split_ifs <;> simp_all [List.filterMap_append, Call.createArgs]

theorem placement_createWindow (plat : Platform) (env : CreateEnv) (mWindows : WindowList)
    (name : String) (w h : Nat) (miscParams : NameValuePairList)
    (hfail : env.boundsStatus < 0) :
    ∀ c ∈ (createWindow plat env mWindows name w h miscParams).trace, c.isPlacement = false := by
  have hneg : ¬ (0 ≤ env.boundsStatus) := by omega
  rw [createWindow_trace]
  unfold createNative queryNative
  split_ifs <;> simp_all [Call.isPlacement]

/-- The converted values of lines 65-66 under the preconditions of the clamp, when the exact
positions are `int`s. -/
theorem windowGeometry_position (env : CreateEnv) (p : RenderWindowDescription)
    (hsw : env.tScreen.w < 2147483648) (hsh : env.tScreen.h < 2147483648)
    (htop : 0 ≤ env.tTop) (hlef : 0 ≤ env.tLef) (hbot : 0 ≤ env.tBot) (hrig : 0 ≤ env.tRig)
    (hfitW : env.tLef + env.tRig ≤ env.tScreen.w)
    (hfitH : env.tTop + env.tBot ≤ env.tScreen.h)
    (hintX : IsInt32 (exactX env p)) (hintY : IsInt32 (exactY env p)) :
    let g := windowGeometry p.width p.height env.tScreen env.tTop env.tLef env.tBot env.tRig
    toInt g.tX = exactX env p ∧ toInt g.tY = exactY env p := by
  intro g
  obtain ⟨hW, hH, htW, htH⟩ :=
    windowGeometry_exact env p hsw hsh htop hlef hbot hrig hfitW hfitH
  have hX : g.tX = uadd (uadd (udiv (usub g.tMaxW (toUnsigned g.tW)) 2)
      (toUnsigned env.tScreen.x)) (toUnsigned env.tLef) := rfl
  have hY : g.tY = uadd (uadd (udiv (usub g.tMaxH (toUnsigned g.tH)) 2)
      (toUnsigned env.tScreen.y)) (toUnsigned env.tTop) := rfl
  change (g.tMaxW : Int) = exactMaxW env at hW
  change (g.tMaxH : Int) = exactMaxH env at hH
  change g.tW = exactW env p at htW
  change g.tH = exactH env p at htH
  clear_value g
  have e1 : exactMaxW env = env.tScreen.w - env.tLef - env.tRig := rfl
  have e2 : exactW env p = min (p.width : Int) (exactMaxW env) := rfl
  have e3 : exactX env p = env.tScreen.x + env.tLef + (exactMaxW env - exactW env p) / 2 := rfl
  have f1 : exactMaxH env = env.tScreen.h - env.tTop - env.tBot := rfl
  have f2 : exactH env p = min (p.height : Int) (exactMaxH env) := rfl
  have f3 : exactY env p = env.tScreen.y + env.tTop + (exactMaxH env - exactH env p) / 2 := rfl
  constructor
  · rw [hX, e3, ← hW, ← htW]
    apply center_eq g.tMaxW g.tW _ _ (by omega) (by omega) (by omega)
    rw [hW, htW, ← e3]
    exact hintX
  · rw [hY, f3, ← hH, ← htH]
    apply center_eq g.tMaxH g.tH _ _ (by omega) (by omega) (by omega)
    rw [hH, htH, ← f3]
    exact hintY

/-- The exact positions are `int`s whenever the corners of the usable bounds are. -/
theorem exact_position_isInt32 (env : CreateEnv) (p : RenderWindowDescription)
    (hx : IsInt32 env.tScreen.x) (hy : IsInt32 env.tScreen.y)
    (hxw : env.tScreen.x + env.tScreen.w < 2147483648)
    (hyh : env.tScreen.y + env.tScreen.h < 2147483648)
    (htop : 0 ≤ env.tTop) (hlef : 0 ≤ env.tLef) (hbot : 0 ≤ env.tBot) (hrig : 0 ≤ env.tRig)
    (hfitW : env.tLef + env.tRig ≤ env.tScreen.w)
    (hfitH : env.tTop + env.tBot ≤ env.tScreen.h) :
    IsInt32 (exactX env p) ∧ IsInt32 (exactY env p) := by
  unfold IsInt32 at *
  unfold exactX exactY exactW exactH exactMaxW exactMaxH
  omega

/-! ## createWindow: size and position -/

/-- C1: in windowed mode, after a successful usable-bounds query and with non-negative borders
that fit into the usable bounds, the maximal size computed on lines 60-61 is the usable size
minus the borders, the size passed to `SDL_SetWindowSize` is the requested size clamped to it,
the window plus its borders does not exceed the usable bounds, and a request that fits is
passed through unchanged. -/
theorem createWindow_clamps_size (plat : Platform) (env : CreateEnv) (mWindows : WindowList)
    (name : String) (w h : Nat) (miscParams : NameValuePairList)
    (hwindowed : env.description.useFullScreen = false)
    (hbounds : 0 ≤ env.boundsStatus)
    (hsw : env.tScreen.w < 2147483648) (hsh : env.tScreen.h < 2147483648)
    (htop : 0 ≤ env.tTop) (hlef : 0 ≤ env.tLef) (hbot : 0 ≤ env.tBot) (hrig : 0 ≤ env.tRig)
    (hfitW : env.tLef + env.tRig ≤ env.tScreen.w)
    (hfitH : env.tTop + env.tBot ≤ env.tScreen.h) :
    let p := mergedDescription env name w h miscParams
    let g := windowGeometry p.width p.height env.tScreen env.tTop env.tLef env.tBot env.tRig
    let maxW := env.tScreen.w - env.tLef - env.tRig
    let maxH := env.tScreen.h - env.tTop - env.tBot
    (g.tMaxW : Int) = maxW ∧ (g.tMaxH : Int) = maxH ∧
    sizeCalls (createWindow plat env mWindows name w h miscParams).trace =
      [(env.window, min (p.width : Int) maxW, min (p.height : Int) maxH)] ∧
    min (p.width : Int) maxW + env.tLef + env.tRig ≤ env.tScreen.w ∧
    min (p.height : Int) maxH + env.tTop + env.tBot ≤ env.tScreen.h ∧
    ((p.width : Int) ≤ maxW → min (p.width : Int) maxW = p.width) ∧
    ((p.height : Int) ≤ maxH → min (p.height : Int) maxH = p.height) := by
  intro p g maxW maxH
  obtain ⟨hW, hH, htW, htH⟩ :=
    windowGeometry_exact env p hsw hsh htop hlef hbot hrig hfitW hfitH
  refine ⟨hW, hH, ?_, ?_, ?_, ?_, ?_⟩
  · rw [sizeCalls_createWindow]
    simp only [hwindowed, hbounds, if_true, Bool.false_eq_true, if_false]
    rw [htW, htH]
    rfl
  · omega
  · omega
  · intro hle; omega
  · intro hle; omega

/-- An instance of C1: a 2560 x 1440 request on the sample screen is cut down to the
1920 x 1016 pixels left by the title bar. -/
theorem createWindow_clamps_size_witness :
    sizeCalls (createWindow Platform.linux sampleEnv [] "main" 2560 1440 noParams).trace =
      [(4096, 1920, 1016)] :=
  (createWindow_clamps_size Platform.linux sampleEnv [] "main" 2560 1440 noParams
    (by decide) (by decide) (by decide) (by decide) (by decide) (by decide) (by decide)
    (by decide) (by decide) (by decide)).2.2.1

/-- C2: in windowed mode, under the preconditions of the clamp, when the exact centred
position is an `int`, that position is the one passed to `SDL_SetWindowPosition`; the
bordered window then lies inside the usable bounds, and the free margin on the right/bottom
exceeds the one on the left/top by 0 or 1 pixel. The origin of the usable bounds is
arbitrary. -/
theorem createWindow_centres (plat : Platform) (env : CreateEnv) (mWindows : WindowList)
    (name : String) (w h : Nat) (miscParams : NameValuePairList)
    (hwindowed : env.description.useFullScreen = false)
    (hbounds : 0 ≤ env.boundsStatus)
    (hsw : env.tScreen.w < 2147483648) (hsh : env.tScreen.h < 2147483648)
    (htop : 0 ≤ env.tTop) (hlef : 0 ≤ env.tLef) (hbot : 0 ≤ env.tBot) (hrig : 0 ≤ env.tRig)
    (hfitW : env.tLef + env.tRig ≤ env.tScreen.w)
    (hfitH : env.tTop + env.tBot ≤ env.tScreen.h)
    (hintX : IsInt32 (exactX env (mergedDescription env name w h miscParams)))
    (hintY : IsInt32 (exactY env (mergedDescription env name w h miscParams))) :
    let p := mergedDescription env name w h miscParams
    let tW := min (p.width : Int) (env.tScreen.w - env.tLef - env.tRig)
    let tH := min (p.height : Int) (env.tScreen.h - env.tTop - env.tBot)
    let tX := env.tScreen.x + env.tLef + (env.tScreen.w - env.tLef - env.tRig - tW) / 2
    let tY := env.tScreen.y + env.tTop + (env.tScreen.h - env.tTop - env.tBot - tH) / 2
    positionCalls (createWindow plat env mWindows name w h miscParams).trace =
      [(env.window, tX, tY)] ∧
    (env.tScreen.x ≤ tX - env.tLef ∧ tX + tW + env.tRig ≤ env.tScreen.x + env.tScreen.w) ∧
    (env.tScreen.y ≤ tY - env.tTop ∧ tY + tH + env.tBot ≤ env.tScreen.y + env.tScreen.h) ∧
    (0 ≤ (env.tScreen.x + env.tScreen.w - (tX + tW + env.tRig)) - (tX - env.tLef - env.tScreen.x) ∧
      (env.tScreen.x + env.tScreen.w - (tX + tW + env.tRig)) - (tX - env.tLef - env.tScreen.x)
        ≤ 1) ∧
    (0 ≤ (env.tScreen.y + env.tScreen.h - (tY + tH + env.tBot)) - (tY - env.tTop - env.tScreen.y) ∧
      (env.tScreen.y + env.tScreen.h - (tY + tH + env.tBot)) - (tY - env.tTop - env.tScreen.y)
        ≤ 1) := by
  intro p tW tH tX tY
  obtain ⟨hx, hy⟩ :=
    windowGeometry_position env p hsw hsh htop hlef hbot hrig hfitW hfitH hintX hintY
  have hXe : exactX env p = tX := rfl
  have hYe : exactY env p = tY := rfl
  have hWe : tW = min (p.width : Int) (env.tScreen.w - env.tLef - env.tRig) := rfl
  have hHe : tH = min (p.height : Int) (env.tScreen.h - env.tTop - env.tBot) := rfl
  have hXd : tX = env.tScreen.x + env.tLef + (env.tScreen.w - env.tLef - env.tRig - tW) / 2 :=
    rfl
  have hYd : tY = env.tScreen.y + env.tTop + (env.tScreen.h - env.tTop - env.tBot - tH) / 2 :=
    rfl
  refine ⟨?_, ?_, ?_, ?_, ?_⟩
  · rw [positionCalls_createWindow]
    simp only [hwindowed, hbounds, if_true, Bool.false_eq_true, if_false]
    rw [hx, hy, hXe, hYe]
  · clear_value tX tY tW tH; omega
  · clear_value tX tY tW tH; omega
  · clear_value tX tY tW tH; omega
  · clear_value tX tY tW tH; omega

/-- An instance of C2 on a monitor with a negative origin: an 800 x 600 window is centred at
(-1360, 258). -/
theorem createWindow_centres_witness :
    positionCalls (createWindow Platform.linux leftMonitorEnv [] "main" 800 600 noParams).trace =
      [(4096, -1360, 258)] :=
  (createWindow_centres Platform.linux leftMonitorEnv [] "main" 800 600 noParams
    (by decide) (by decide) (by decide) (by decide) (by decide) (by decide) (by decide)
    (by decide) (by decide) (by decide) (by decide) (by decide)).1

/-- C3: in windowed mode, when `SDL_GetDisplayUsableBounds` returns a negative value, the query
has been made, none of the sizing and centring calls of lines 59-70 follows, and the call
completes as after a successful query: the same description goes to
`Root::createRenderWindow`, the pair of the two new windows is appended to `mWindows` and
returned. -/
theorem createWindow_tolerates_failed_bounds (plat : Platform) (env : CreateEnv)
    (mWindows : WindowList) (name : String) (w h : Nat) (miscParams : NameValuePairList)
    (hwindowed : env.description.useFullScreen = false)
    (hfail : env.boundsStatus < 0) :
    let r := createWindow plat env mWindows name w h miscParams
    Call.SDL_GetDisplayUsableBounds env.displayIndex ∈ r.trace ∧
    (∀ c ∈ r.trace, c.isPlacement = false) ∧
    (∀ status : Int, 0 ≤ status →
      let s := createWindow plat { env with boundsStatus := status } mWindows name w h miscParams
      renderCalls r.trace = renderCalls s.trace ∧ r.mWindows = s.mWindows ∧ r.ret = s.ret) ∧
    renderCalls r.trace = [finalDescription plat env mWindows name w h miscParams] ∧
    r.mWindows = mWindows ++ [r.ret] ∧
    r.ret = { render := env.renderWindow, native := env.window } := by
  intro r
  refine ⟨?_, placement_createWindow plat env mWindows name w h miscParams hfail, ?_,
    renderCalls_createWindow plat env mWindows name w h miscParams, rfl, rfl⟩
  · show _ ∈ (createWindow plat env mWindows name w h miscParams).trace
    rw [createWindow_trace]
    unfold createNative
    rw [mergedDescription_useFullScreen, hwindowed]
    simp
  · intro status _ s
    refine ⟨?_, rfl, rfl⟩
    show renderCalls (createWindow plat env mWindows name w h miscParams).trace =
      renderCalls (createWindow plat { env with boundsStatus := status } mWindows name w h
        miscParams).trace
    rw [renderCalls_createWindow, renderCalls_createWindow]
    rfl

/-- An instance of C3: with a failing bounds query the sample call makes no
`SDL_SetWindowSize` or other placement call and appends the pair it returns. -/
theorem createWindow_tolerates_failed_bounds_witness :
    (∀ c ∈ (createWindow Platform.linux failedBoundsEnv [] "main" 800 600 noParams).trace,
      c.isPlacement = false) ∧
    (createWindow Platform.linux failedBoundsEnv [] "main" 800 600 noParams).mWindows =
      [{ render := 8192, native := 4096 }] :=
  ⟨(createWindow_tolerates_failed_bounds Platform.linux failedBoundsEnv [] "main" 800 600
      noParams (by decide) (by decide)).2.1,
    (createWindow_tolerates_failed_bounds Platform.linux failedBoundsEnv [] "main" 800 600
      noParams (by decide) (by decide)).2.2.2.2.1⟩

/-- C4 fails as stated: in windowed mode with a failing bounds query, an 800 x 600 request
that would fit the 1920 x 1053 screen reaches `Root::createRenderWindow`, but the only size
SDL is ever given for the native window is the 1 x 1 of `SDL_CreateWindow`. -/
theorem createWindow_size_counterexample :
    failedBoundsEnv.description.useFullScreen = false ∧
    effectiveSize failedBoundsEnv 800 600 = (800, 600) ∧
    (renderCalls (createWindow Platform.linux failedBoundsEnv [] "main" 800 600
      noParams).trace).map (fun p => (p.width, p.height)) = [(800, 600)] ∧
    sizesGiven (createWindow Platform.linux failedBoundsEnv [] "main" 800 600 noParams).trace =
      [(1, 1)] ∧
    ¬ ((800, 600) ∈
      sizesGiven (createWindow Platform.linux failedBoundsEnv [] "main" 800 600
        noParams).trace) := by
  refine ⟨rfl, rfl, rfl, rfl, ?_⟩
  have h : sizesGiven (createWindow Platform.linux failedBoundsEnv [] "main" 800 600
      noParams).trace = [(1, 1)] := rfl
  rw [h]
  decide

/-- C4, amended: the effective size is `(w, h)` when both are positive and the size of the
render system's description otherwise; it is the size of the description given to
`Root::createRenderWindow`; in fullscreen mode it is, converted to `int`, the size given to
`SDL_CreateWindow` (the same numbers below `2^31`); in windowed mode, after a successful
bounds query and with borders that fit, it is, clamped to the usable bounds, the size given
to `SDL_SetWindowSize`. -/
theorem createWindow_effective_size (plat : Platform) (env : CreateEnv) (mWindows : WindowList)
    (name : String) (w h : Nat) (miscParams : NameValuePairList) :
    let r := createWindow plat env mWindows name w h miscParams
    let e := effectiveSize env w h
    (0 < w ∧ 0 < h → e = (w, h)) ∧
    (¬ (0 < w ∧ 0 < h) → e = (env.description.width, env.description.height)) ∧
    (renderCalls r.trace).map (fun p => (p.width, p.height)) = [e] ∧
    (env.description.useFullScreen = true →
      createCalls r.trace = [(name, SDL_WINDOWPOS_UNDEFINED, SDL_WINDOWPOS_UNDEFINED,
        toInt e.1, toInt e.2, SDL_WINDOW_FULLSCREEN)] ∧
      (e.1 < 2147483648 → toInt e.1 = (e.1 : Int)) ∧
      (e.2 < 2147483648 → toInt e.2 = (e.2 : Int))) ∧
    (env.description.useFullScreen = false → 0 ≤ env.boundsStatus →
      env.tScreen.w < 2147483648 → env.tScreen.h < 2147483648 →
      0 ≤ env.tTop → 0 ≤ env.tLef → 0 ≤ env.tBot → 0 ≤ env.tRig →
      env.tLef + env.tRig ≤ env.tScreen.w → env.tTop + env.tBot ≤ env.tScreen.h →
      sizeCalls r.trace = [(env.window,
        min (e.1 : Int) (env.tScreen.w - env.tLef - env.tRig),
        min (e.2 : Int) (env.tScreen.h - env.tTop - env.tBot))]) := by
  intro r e
  have he : ((mergedDescription env name w h miscParams).width,
      (mergedDescription env name w h miscParams).height) = e :=
    mergedDescription_size env name w h miscParams
  have he1 : (mergedDescription env name w h miscParams).width = e.1 := by rw [← he]
  have he2 : (mergedDescription env name w h miscParams).height = e.2 := by rw [← he]
  refine ⟨?_, ?_, ?_, ?_, ?_⟩
  · intro hpos
    show effectiveSize env w h = (w, h)
    unfold effectiveSize
    rw [if_pos hpos]
  · intro hneg
    show effectiveSize env w h = _
    unfold effectiveSize
    rw [if_neg hneg]
  · show (renderCalls (createWindow plat env mWindows name w h miscParams).trace).map _ = _
    rw [renderCalls_createWindow]
    exact congrArg (fun x => [x]) he
  · intro hfull
    refine ⟨?_, fun h1 => toInt_eq _ h1, fun h2 => toInt_eq _ h2⟩
    show createCalls (createWindow plat env mWindows name w h miscParams).trace = _
    rw [createCalls_createWindow, if_pos hfull]
    simp only [he1, he2]
  · intro hwindowed hbounds hsw hsh htop hlef hbot hrig hfitW hfitH
    obtain ⟨_, _, htW, htH⟩ := windowGeometry_exact env
      (mergedDescription env name w h miscParams) hsw hsh htop hlef hbot hrig hfitW hfitH
    show sizeCalls (createWindow plat env mWindows name w h miscParams).trace = _
    rw [sizeCalls_createWindow]
    simp only [hwindowed, hbounds, if_true, Bool.false_eq_true, if_false]
    rw [htW, htH]
    unfold exactW exactH exactMaxW exactMaxH
    rw [he1, he2]

/-- An instance of amended C4: a fullscreen 1024 x 768 request goes to `SDL_CreateWindow`, and
a windowed request with a zero width falls back to the 800 x 600 of the render system. -/
theorem createWindow_effective_size_witness :
    createCalls (createWindow Platform.linux fullScreenEnv [] "main" 1024 768 noParams).trace =
      [("main", SDL_WINDOWPOS_UNDEFINED, SDL_WINDOWPOS_UNDEFINED, 1024, 768,
        SDL_WINDOW_FULLSCREEN)] ∧
    sizeCalls (createWindow Platform.linux sampleEnv [] "main" 0 768 noParams).trace =
      [(4096, 800, 600)] :=
  ⟨((createWindow_effective_size Platform.linux fullScreenEnv [] "main" 1024 768
      noParams).2.2.2.1 (by decide)).1,
    (createWindow_effective_size Platform.linux sampleEnv [] "main" 0 768 noParams).2.2.2.2
      (by decide) (by decide) (by decide) (by decide) (by decide) (by decide) (by decide)
      (by decide) (by decide) (by decide)⟩

/-! ## shutdown -/

theorem destroyCalls_destroyLoop (l : WindowList) :
    destroyCalls (destroyLoop l) = (l.map (fun it => it.native)).filter (fun n => n ≠ 0) := by
  unfold destroyCalls
  induction l with
  | nil => rfl
  | cons it rest ih =>
    unfold destroyLoop
    by_cases hn : it.native = 0
    · simp [hn, ih]
    · simp [hn, ih, Call.destroyArg]

theorem quitCalls_destroyLoop (l : WindowList) : quitCalls (destroyLoop l) = [] := by
  unfold quitCalls
  induction l with
  | nil => rfl
  | cons it rest ih =>
    unfold destroyLoop
    by_cases hn : it.native = 0
    · simp [hn, ih]
    · simp [hn, ih, Call.quitArg]

/-- C5: `shutdown` calls `SDL_DestroyWindow` on the non-null native handles of `mWindows`, one
call per entry and in list order, and on nothing else; it calls
`SDL_QuitSubSystem(SDL_INIT_VIDEO)` once if the list was non-empty and not at all otherwise;
it leaves `mWindows` empty, so that a second `shutdown` makes neither call. -/
theorem shutdown_tears_down (mWindows : WindowList) :
    let r := shutdown mWindows
    destroyCalls r.trace = (mWindows.map (fun it => it.native)).filter (fun n => n ≠ 0) ∧
    quitCalls r.trace = (if mWindows = [] then [] else [SDL_INIT_VIDEO]) ∧
    r.mWindows = [] ∧
    destroyCalls (shutdown r.mWindows).trace = [] ∧
    quitCalls (shutdown r.mWindows).trace = [] := by
  refine ⟨?_, ?_, rfl, rfl, rfl⟩
  · show destroyCalls (Call.ApplicationContextBase_shutdown :: destroyLoop mWindows ++ _) = _
    have h := destroyCalls_destroyLoop mWindows
    unfold destroyCalls at h ⊢
    cases mWindows with
    | nil => rfl
    | cons it rest =>
      simp only [List.filterMap_cons, List.filterMap_append, Call.destroyArg, h]
      simp [Call.destroyArg]
  · show quitCalls (Call.ApplicationContextBase_shutdown :: destroyLoop mWindows ++ _) = _
    have h := quitCalls_destroyLoop mWindows
    unfold quitCalls at h ⊢
    cases mWindows with
    | nil => rfl
    | cons it rest =>
      simp only [List.filterMap_cons, List.filterMap_append, Call.quitArg, h]
      simp [Call.quitArg]

/-! ## pollEvents -/

theorem callbacks_resizeLoop (env : PollEnv) (event : SDL_Event) (l : WindowList) :
    callbacks (resizeLoop env event l) =
      (l.filter (fun it => env.windowID it.native = event.windowID)).flatMap
        (fun it => [Callback.windowMovedOrResized it.render, Callback.windowResized it.render]) := by
  unfold callbacks
  induction l with
  | nil => rfl
  | cons it rest ih =>
    unfold resizeLoop
    by_cases hid : event.windowID = env.windowID it.native
    · simp [hid, ih, Call.callback, List.filter_cons]
    · have hid2 : ¬ env.windowID it.native = event.windowID := fun e => hid e.symm
      simp [hid, hid2, ih, Call.callback, List.filter_cons]

theorem pollCalls_resizeLoop (env : PollEnv) (event : SDL_Event) (l : WindowList) :
    pollCalls (resizeLoop env event l) = [] := by
  unfold pollCalls
  induction l with
  | nil => rfl
  | cons it rest ih =>
    unfold resizeLoop
    by_cases hid : event.windowID = env.windowID it.native
    · simp [hid, ih, Call.pollResult]
    · simp [hid, ih, Call.pollResult]

theorem callbacks_handleEvent (env : PollEnv) (mWindows : WindowList) (event : SDL_Event) :
    callbacks (handleEvent env mWindows event) = expectedCallbacks env mWindows event := by
  unfold handleEvent expectedCallbacks
  by_cases h1 : event.type = SDL_QUIT
  · rw [if_pos h1, if_pos h1]; rfl
  · rw [if_neg h1, if_neg h1]
    by_cases h2 : event.type = SDL_WINDOWEVENT
    · rw [if_pos h2, if_pos h2]
      by_cases h3 : event.windowEvent = SDL_WINDOWEVENT_RESIZED
      · rw [if_neg (not_not.mpr h3), if_pos h3]
        exact callbacks_resizeLoop env event mWindows
      · rw [if_pos h3, if_neg h3]; rfl
    · rw [if_neg h2, if_neg h2]; rfl

theorem pollCalls_handleEvent (env : PollEnv) (mWindows : WindowList) (event : SDL_Event) :
    pollCalls (handleEvent env mWindows event) = [] := by
  unfold handleEvent
  split_ifs
  · rfl
  · rfl
  · exact pollCalls_resizeLoop env event mWindows
  · rfl

theorem eventLoop_queue (env : PollEnv) (mWindows : WindowList) (queue : List SDL_Event) :
    (eventLoop env mWindows queue).2 = [] := by
  induction queue with
  | nil => rfl
  | cons event rest ih => exact ih

theorem eventLoop_trace (env : PollEnv) (mWindows : WindowList) (queue : List SDL_Event) :
    (eventLoop env mWindows queue).1 =
      queue.flatMap (fun event =>
        Call.SDL_PollEvent (some event) :: handleEvent env mWindows event) ++
      [Call.SDL_PollEvent none] := by
  induction queue with
  | nil => rfl
  | cons event rest ih =>
    show Call.SDL_PollEvent (some event) ::
      (handleEvent env mWindows event ++ (eventLoop env mWindows rest).1) = _
    rw [ih]
    simp [List.flatMap_cons]

theorem pollCalls_eventLoop (env : PollEnv) (mWindows : WindowList) (queue : List SDL_Event) :
    pollCalls (eventLoop env mWindows queue).1 = queue.map some ++ [none] := by
  induction queue with
  | nil => rfl
  | cons event rest ih =>
    show pollCalls (Call.SDL_PollEvent (some event) ::
      (handleEvent env mWindows event ++ (eventLoop env mWindows rest).1)) = _
    have h := pollCalls_handleEvent env mWindows event
    unfold pollCalls at h ih ⊢
    simp [List.filterMap_append, h, ih, Call.pollResult]

theorem callbacks_eventLoop (env : PollEnv) (mWindows : WindowList) (queue : List SDL_Event) :
    callbacks (eventLoop env mWindows queue).1 =
      queue.flatMap (expectedCallbacks env mWindows) := by
  induction queue with
  | nil => rfl
  | cons event rest ih =>
    show callbacks (Call.SDL_PollEvent (some event) ::
      (handleEvent env mWindows event ++ (eventLoop env mWindows rest).1)) = _
    have h := callbacks_handleEvent env mWindows event
    unfold callbacks at h ih ⊢
    simp [List.filterMap_append, h, ih, Call.callback, List.flatMap_cons]

theorem callbacks_appleWorkaround (env : PollEnv) (l : WindowList) :
    callbacks (appleWorkaround env l) =
      l.map (fun it => Callback.windowMovedOrResized it.render) := by
  unfold callbacks
  induction l with
  | nil => rfl
  | cons it rest ih =>
    unfold appleWorkaround
    simp [List.filterMap_append, ih, Call.callback]

theorem pollCalls_appleWorkaround (env : PollEnv) (l : WindowList) :
    pollCalls (appleWorkaround env l) = [] := by
  unfold pollCalls
  induction l with
  | nil => rfl
  | cons it rest ih =>
    unfold appleWorkaround
    simp [List.filterMap_append, ih, Call.pollResult]

theorem pollEvents_nonempty (plat : Platform) (env : PollEnv) (mWindows : WindowList)
    (queue : List SDL_Event) (hne : mWindows ≠ []) :
    pollEvents plat env mWindows queue =
      { queue := (eventLoop env mWindows queue).2
        trace := (eventLoop env mWindows queue).1 ++
          (if plat = Platform.apple then appleWorkaround env mWindows else []) } := by
  unfold pollEvents
  cases mWindows with
  | nil => exact absurd rfl hne
  | cons it rest => rfl

/-- C6: with an empty `mWindows`, `pollEvents` consumes no event and makes no call. With a
non-empty `mWindows` it polls every pending event, in order, until `SDL_PollEvent` reports
none left; after each event it does what the `switch` says, and the callbacks of that are:
`queueEndRendering` for a quit event; `windowMovedOrResized` then `windowResized` on the
render window of every entry whose window id is the event's, for a resize event; nothing for
any other window event; `_fireInputEvent` of the converted event and the event's window id
for every other event. After the loop only the macOS build makes further calls. -/
theorem pollEvents_translates (plat : Platform) (env : PollEnv) (mWindows : WindowList)
    (queue : List SDL_Event) :
    let r := pollEvents plat env mWindows queue
    (mWindows = [] → r.queue = queue ∧ r.trace = []) ∧
    (mWindows ≠ [] →
      r.queue = [] ∧
      pollCalls r.trace = queue.map some ++ [none] ∧
      r.trace =
        queue.flatMap (fun event =>
          Call.SDL_PollEvent (some event) :: handleEvent env mWindows event) ++
        [Call.SDL_PollEvent none] ++
        (if plat = Platform.apple then appleWorkaround env mWindows else []) ∧
      (∀ event, callbacks (handleEvent env mWindows event) =
        expectedCallbacks env mWindows event) ∧
      callbacks r.trace =
        queue.flatMap (expectedCallbacks env mWindows) ++
        (if plat = Platform.apple then
          mWindows.map (fun it => Callback.windowMovedOrResized it.render)
        else [])) := by
  intro r
  constructor
  · intro hempty
    subst hempty
    exact ⟨rfl, rfl⟩
  · intro hne
    have hr : r = _ := pollEvents_nonempty plat env mWindows queue hne
    rw [hr]
    refine ⟨eventLoop_queue env mWindows queue, ?_, ?_,
      callbacks_handleEvent env mWindows, ?_⟩
    · show pollCalls ((eventLoop env mWindows queue).1 ++ _) = _
      have h1 := pollCalls_eventLoop env mWindows queue
      have h2 := pollCalls_appleWorkaround env mWindows
      unfold pollCalls at h1 h2 ⊢
      rw [List.filterMap_append, h1]
      split_ifs
      · rw [h2, List.append_nil]
      · simp
    · show (eventLoop env mWindows queue).1 ++ _ = _
      rw [eventLoop_trace]
    · show callbacks ((eventLoop env mWindows queue).1 ++ _) = _
      have h1 := callbacks_eventLoop env mWindows queue
      have h2 := callbacks_appleWorkaround env mWindows
      unfold callbacks at h1 h2 ⊢
      rw [List.filterMap_append, h1]
      split_ifs
      · rw [h2]
      · rfl

/-- An instance of C6: on the sample queue, with windows 256, 0 and 257, the resize notifies
the first render window, the key press is fired under window id 257 and the quit request ends
the rendering; without windows nothing is consumed. -/
theorem pollEvents_translates_witness :
    callbacks (pollEvents Platform.linux samplePollEnv sampleWindows sampleQueue).trace =
      [Callback.windowMovedOrResized 8192, Callback.windowResized 8192,
       Callback.fireInputEvent 795 257, Callback.queueEndRendering] ∧
    (pollEvents Platform.linux samplePollEnv sampleWindows sampleQueue).queue = [] ∧
    (pollEvents Platform.linux samplePollEnv [] sampleQueue).queue = sampleQueue :=
  ⟨((pollEvents_translates Platform.linux samplePollEnv sampleWindows sampleQueue).2
      (by decide)).2.2.2.2,
    ((pollEvents_translates Platform.linux samplePollEnv sampleWindows sampleQueue).2
      (by decide)).1,
    ((pollEvents_translates Platform.linux samplePollEnv [] sampleQueue).1 rfl).1⟩

/-! ## The window list -/

theorem runOps_nodup (plat : Platform) (ops : List Op) :
    ∀ mWindows : WindowList,
      (mWindows.map (fun it => it.render) ++ createdRenderWindows ops).Nodup →
      ((runOps plat mWindows ops).map (fun it => it.render)).Nodup := by
  induction ops with
  | nil =>
    intro mWindows h
    simpa [runOps, createdRenderWindows] using h
  | cons op rest ih =>
    intro mWindows h
    cases op with
    | createWindow env name w h miscParams =>
      show ((runOps plat (mWindows ++ [{ render := env.renderWindow, native := env.window }])
        rest).map (fun it => it.render)).Nodup
      apply ih
      simpa [createdRenderWindows, List.append_assoc] using h
    | shutdown =>
      show ((runOps plat [] rest).map (fun it => it.render)).Nodup
      apply ih
      have h2 : (createdRenderWindows rest).Nodup := (List.nodup_append.mp h).2.1
      simpa using h2

theorem runOps_length (plat : Platform) (ops : List Op) :
    ∀ mWindows : WindowList,
      (runOps plat mWindows ops).length = callsSinceShutdown mWindows.length ops := by
  induction ops with
  | nil => intro mWindows; rfl
  | cons op rest ih =>
    intro mWindows
    cases op with
    | createWindow env name w h miscParams =>
      show (runOps plat (mWindows ++ [{ render := env.renderWindow, native := env.window }])
        rest).length = callsSinceShutdown (mWindows.length + 1) rest
      rw [ih]
      simp
    | shutdown =>
      show (runOps plat [] rest).length = callsSinceShutdown 0 rest
      rw [ih]
      rfl

/-- C7: a `createWindow` call makes one `SDL_CreateWindow` and one `Root::createRenderWindow`
call, appends the pair of their results at the end of `mWindows`, keeps the earlier entries,
and returns that pair. Hence, after any sequence of `createWindow` and `shutdown` calls
starting from an empty list in which `Root::createRenderWindow` returned pairwise distinct
render windows, no render window occurs in two entries of `mWindows` (so it has one native
handle), and the length of `mWindows` is the number of `createWindow` calls since the last
`shutdown`. -/
theorem windows_have_one_native_handle (plat : Platform) (ops : List Op)
    (hdistinct : (createdRenderWindows ops).Nodup) :
    (∀ (env : CreateEnv) (mWindows : WindowList) (name : String) (w h : Nat)
        (miscParams : NameValuePairList),
      let r := createWindow plat env mWindows name w h miscParams
      r.mWindows = mWindows ++ [r.ret] ∧
      r.ret = { render := env.renderWindow, native := env.window } ∧
      (createCalls r.trace).length = 1 ∧ (renderCalls r.trace).length = 1) ∧
    ((runOps plat [] ops).map (fun it => it.render)).Nodup ∧
    (∀ a ∈ runOps plat [] ops, ∀ b ∈ runOps plat [] ops, a.render = b.render → a = b) ∧
    (runOps plat [] ops).length = callsSinceShutdown 0 ops := by
  have hnodup : ((runOps plat [] ops).map (fun it => it.render)).Nodup :=
    runOps_nodup plat ops [] (by simpa using hdistinct)
  refine ⟨?_, hnodup, ?_, runOps_length plat ops []⟩
  · intro env mWindows name w h miscParams r
    refine ⟨rfl, rfl, ?_, ?_⟩
    · show (createCalls (createWindow plat env mWindows name w h miscParams).trace).length = 1
      rw [createCalls_createWindow]
      split_ifs <;> rfl
    · show (renderCalls (createWindow plat env mWindows name w h miscParams).trace).length = 1
      rw [renderCalls_createWindow]
      rfl
  · intro a ha b hb hab
    exact List.inj_on_of_nodup_map hnodup ha hb hab

/-- An instance of C7: after two windows, a shutdown and a third window, the list holds the
third pair only. -/
theorem windows_have_one_native_handle_witness :
    (runOps Platform.linux [] sampleOps).length = 1 ∧
    ((runOps Platform.linux [] sampleOps).map (fun it => it.render)).Nodup :=
  ⟨(windows_have_one_native_handle Platform.linux sampleOps (by decide)).2.2.2,
    (windows_have_one_native_handle Platform.linux sampleOps (by decide)).2.1⟩

/-! ## Input listeners -/

/-- C8: `addInputListener` makes the pair of the window's id and the listener a member and
changes no other membership; adding twice is adding once; `removeInputListener` removes that
pair, changes no other membership and does nothing when the pair is absent; adding a pair
that was absent and removing it again restores the set. -/
theorem listeners_form_a_set (windowID : Nat → Nat) (S : InputListenerList) (win lis : Nat) :
    (windowID win, lis) ∈ addInputListener windowID S win lis ∧
    (∀ id l, (id ≠ windowID win ∨ l ≠ lis) →
      ((id, l) ∈ addInputListener windowID S win lis ↔ (id, l) ∈ S)) ∧
    addInputListener windowID (addInputListener windowID S win lis) win lis =
      addInputListener windowID S win lis ∧
    (windowID win, lis) ∉ removeInputListener windowID S win lis ∧
    (∀ id l, (id ≠ windowID win ∨ l ≠ lis) →
      ((id, l) ∈ removeInputListener windowID S win lis ↔ (id, l) ∈ S)) ∧
    ((windowID win, lis) ∉ S → removeInputListener windowID S win lis = S) ∧
    ((windowID win, lis) ∉ S →
      removeInputListener windowID (addInputListener windowID S win lis) win lis = S) := by
  unfold addInputListener removeInputListener
  refine ⟨Finset.mem_insert_self _ _, ?_, ?_, Finset.not_mem_erase _ _, ?_, ?_, ?_⟩
  · intro id l hne
    have hq : (id, l) ≠ (windowID win, lis) := by
      intro e
      rcases hne with h1 | h2
      · exact h1 (congrArg Prod.fst e)
      · exact h2 (congrArg Prod.snd e)
    simp [Finset.mem_insert, hq]
  · exact Finset.insert_eq_of_mem (Finset.mem_insert_self _ _)
  · intro id l hne
    have hq : (id, l) ≠ (windowID win, lis) := by
      intro e
      rcases hne with h1 | h2
      · exact h1 (congrArg Prod.fst e)
      · exact h2 (congrArg Prod.snd e)
    simp [Finset.mem_erase, hq]
  · intro habsent
    exact Finset.erase_eq_of_not_mem habsent
  · intro habsent
    exact Finset.erase_insert habsent

/-- An instance of C8: listener 3 is absent from window id 258 in the sample set, so adding
it for the window at address 4128 and removing it restores the set. -/
theorem listeners_form_a_set_witness :
    removeInputListener sampleWindowID
      (addInputListener sampleWindowID sampleListeners 4128 3) 4128 3 = sampleListeners :=
  (listeners_form_a_set sampleWindowID sampleListeners 4128 3).2.2.2.2.2.2 (by decide)

/-! ## The parameters of the render window -/

theorem handleKey_ne_context (plat : Platform) : handleKey plat ≠ some "currentGLContext" := by
  cases plat <;> decide

theorem setHandle_apply (plat : Platform) (env : CreateEnv) (m : NameValuePairList)
    (k : String) :
    setHandle plat env m k =
      if handleKey plat = some k then some (Nat.repr env.wmWindow) else m k := by
  unfold setHandle NameValuePairList.assign
  cases hk : handleKey plat with
  | none => simp
  | some key =>
    by_cases e : k = key
    · simp [e]
    · have e2 : ¬ key = k := fun h => e h.symm
      simp [e, e2]

theorem setContext_apply (plat : Platform) (mWindows : WindowList) (m : NameValuePairList)
    (k : String) :
    setContext plat mWindows m k =
      if k = "currentGLContext" ∧ (mWindows ≠ [] ∨ plat = Platform.emscripten) then some "true"
      else m k := by
  unfold setContext NameValuePairList.assign
  cases mWindows with
  | nil =>
    by_cases hp : plat = Platform.emscripten
    · simp [hp]
    · simp [hp]
  | cons it rest => simp

theorem finalDescription_apply (plat : Platform) (env : CreateEnv) (mWindows : WindowList)
    (name : String) (w h : Nat) (miscParams : NameValuePairList) (k : String) :
    (finalDescription plat env mWindows name w h miscParams).miscParams k =
      if k = "currentGLContext" ∧ (mWindows ≠ [] ∨ plat = Platform.emscripten) then some "true"
      else if handleKey plat = some k then some (Nat.repr env.wmWindow)
      else (miscParams.insertRange env.description.miscParams) k := by
  show setContext plat mWindows
    (setHandle plat env (mergedDescription env name w h miscParams).miscParams) k = _
  rw [setContext_apply, setHandle_apply, mergedDescription_miscParams]

/-- C9: on a platform other than Emscripten, the description given to
`Root::createRenderWindow` has `currentGLContext` overwritten with `true` exactly when
`mWindows` is non-empty at the call; with an empty `mWindows`, as at start-up and after a
`shutdown`, the key keeps the value of the merged parameters (the caller's, else the render
system's) and is absent when neither has it. -/
theorem additional_windows_reuse_context (plat : Platform) (env : CreateEnv)
    (mWindows : WindowList) (name : String) (w h : Nat) (miscParams : NameValuePairList)
    (hplat : plat ≠ Platform.emscripten) :
    let p := finalDescription plat env mWindows name w h miscParams
    let merged := miscParams.insertRange env.description.miscParams
    renderCalls (createWindow plat env mWindows name w h miscParams).trace = [p] ∧
    p.miscParams =
      (if mWindows = [] then setHandle plat env merged
       else (setHandle plat env merged).assign "currentGLContext" "true") ∧
    (mWindows ≠ [] → p.miscParams "currentGLContext" = some "true") ∧
    (mWindows = [] → p.miscParams "currentGLContext" = merged "currentGLContext") ∧
    (∀ v, miscParams "currentGLContext" = some v → merged "currentGLContext" = some v) ∧
    (miscParams "currentGLContext" = none →
      merged "currentGLContext" = env.description.miscParams "currentGLContext") ∧
    (mWindows = [] → miscParams "currentGLContext" = none →
      env.description.miscParams "currentGLContext" = none →
      p.miscParams "currentGLContext" = none) ∧
    (finalDescription plat env (shutdown mWindows).mWindows name w h
      miscParams).miscParams "currentGLContext" = merged "currentGLContext" := by
  intro p merged
  have hkey := handleKey_ne_context plat
  have hp : p.miscParams "currentGLContext" =
      if mWindows ≠ [] then some "true" else merged "currentGLContext" := by
    show (finalDescription plat env mWindows name w h miscParams).miscParams _ = _
    rw [finalDescription_apply]
    by_cases hne : mWindows = []
    · simp [hne, hplat, hkey]
    · simp [hne]
  have hm1 : ∀ v, miscParams "currentGLContext" = some v →
      merged "currentGLContext" = some v := by
    intro v hv
    show NameValuePairList.insertRange miscParams env.description.miscParams _ = _
    unfold NameValuePairList.insertRange
    rw [hv]
  have hm2 : miscParams "currentGLContext" = none →
      merged "currentGLContext" = env.description.miscParams "currentGLContext" := by
    intro hv
    show NameValuePairList.insertRange miscParams env.description.miscParams _ = _
    unfold NameValuePairList.insertRange
    rw [hv]
  refine ⟨renderCalls_createWindow plat env mWindows name w h miscParams, ?_, ?_, ?_,
    hm1, hm2, ?_, ?_⟩
  · show setContext plat mWindows
      (setHandle plat env (mergedDescription env name w h miscParams).miscParams) = _
    rw [mergedDescription_miscParams]
    unfold setContext
    cases mWindows with
    | nil => simp [hplat]
    | cons it rest => simp
  · intro hne
    rw [hp, if_pos hne]
  · intro hempty
    rw [hp, if_neg (not_not.mpr hempty)]
  · intro hempty hcaller hsystem
    rw [hp, if_neg (not_not.mpr hempty), hm2 hcaller, hsystem]
  · show (finalDescription plat env [] name w h miscParams).miscParams _ = _
    rw [finalDescription_apply]
    simp [hplat, hkey]

/-- An instance of C9: the second window created on Linux carries `currentGLContext`. -/
theorem additional_windows_reuse_context_witness :
    (finalDescription Platform.linux sampleEnv [{ render := 8192, native := 4096 }] "second"
      800 600 noParams).miscParams "currentGLContext" = some "true" :=
  (additional_windows_reuse_context Platform.linux sampleEnv
    [{ render := 8192, native := 4096 }] "second" 800 600 noParams (by decide)).2.2.1
    (by decide)

/-- C10: the parameters given to `Root::createRenderWindow` have exactly the keys of the
caller's parameters and of the render system's description, plus the platform's
window-handle key and, when set, `currentGLContext`. In the merge the caller's value wins
over the render system's, and that value is the final one for every key other than those
two; the window-handle key (`parentWindowHandle` on Linux, `externalWindowHandle` on Windows
and macOS) always ends up holding the native handle as a decimal string. -/
theorem parameters_merge (plat : Platform) (env : CreateEnv) (mWindows : WindowList)
    (name : String) (w h : Nat) (miscParams : NameValuePairList) :
    let p := finalDescription plat env mWindows name w h miscParams
    renderCalls (createWindow plat env mWindows name w h miscParams).trace = [p] ∧
    (∀ k, (p.miscParams k).isSome = true ↔
      ((miscParams k).isSome = true ∨ (env.description.miscParams k).isSome = true ∨
        handleKey plat = some k ∨
        (k = "currentGLContext" ∧ (mWindows ≠ [] ∨ plat = Platform.emscripten)))) ∧
    (∀ k v, miscParams k = some v →
      (mergedDescription env name w h miscParams).miscParams k = some v) ∧
    (∀ k, miscParams k = none →
      (mergedDescription env name w h miscParams).miscParams k =
        env.description.miscParams k) ∧
    (∀ k v, miscParams k = some v → handleKey plat ≠ some k →
      ¬ (k = "currentGLContext" ∧ (mWindows ≠ [] ∨ plat = Platform.emscripten)) →
      p.miscParams k = some v) ∧
    (∀ k, miscParams k = none → handleKey plat ≠ some k →
      ¬ (k = "currentGLContext" ∧ (mWindows ≠ [] ∨ plat = Platform.emscripten)) →
      p.miscParams k = env.description.miscParams k) ∧
    (∀ key, handleKey plat = some key → p.miscParams key = some (Nat.repr env.wmWindow)) ∧
    handleKey Platform.linux = some "parentWindowHandle" ∧
    handleKey Platform.win32 = some "externalWindowHandle" ∧
    handleKey Platform.apple = some "externalWindowHandle" := by
  intro p
  have hsome : ∀ k v, miscParams k = some v →
      (miscParams.insertRange env.description.miscParams) k = some v := by
    intro k v hv
    unfold NameValuePairList.insertRange
    rw [hv]
  have hnone : ∀ k, miscParams k = none →
      (miscParams.insertRange env.description.miscParams) k = env.description.miscParams k := by
    intro k hv
    unfold NameValuePairList.insertRange
    rw [hv]
  refine ⟨renderCalls_createWindow plat env mWindows name w h miscParams, ?_, ?_, ?_, ?_, ?_,
    ?_, rfl, rfl, rfl⟩
  · intro k
    show ((finalDescription plat env mWindows name w h miscParams).miscParams k).isSome = true ↔ _
    rw [finalDescription_apply]
    by_cases hc : k = "currentGLContext" ∧ (mWindows ≠ [] ∨ plat = Platform.emscripten)
    · rw [if_pos hc]
      simp only [Option.isSome_some, true_iff]
      exact Or.inr (Or.inr (Or.inr hc))
    · rw [if_neg hc]
      by_cases hk : handleKey plat = some k
      · rw [if_pos hk]
        simp only [Option.isSome_some, true_iff]
        exact Or.inr (Or.inr (Or.inl hk))
      · rw [if_neg hk]
        cases hv : miscParams k with
        | some v => simp [hsome k v hv]
        | none => simp [hnone k hv, hk, hc]
  · intro k v hv
    rw [mergedDescription_miscParams]
    exact hsome k v hv
  · intro k hv
    rw [mergedDescription_miscParams]
    exact hnone k hv
  · intro k v hv hk hc
    show (finalDescription plat env mWindows name w h miscParams).miscParams k = _
    rw [finalDescription_apply, if_neg hc, if_neg hk]
    exact hsome k v hv
  · intro k hv hk hc
    show (finalDescription plat env mWindows name w h miscParams).miscParams k = _
    rw [finalDescription_apply, if_neg hc, if_neg hk]
    exact hnone k hv
  · intro key hkey
    show (finalDescription plat env mWindows name w h miscParams).miscParams key = _
    have hne : key ≠ "currentGLContext" := by
      intro e
      rw [e] at hkey
      exact handleKey_ne_context plat hkey
    rw [finalDescription_apply, if_neg (fun hc => hne hc.1), if_pos hkey]

/-- An instance of C10: the caller's `FSAA` = 4 wins over the render system's 0, and the
handle 77 is stored under `parentWindowHandle` on Linux. -/
theorem parameters_merge_witness :
    (finalDescription Platform.linux sampleEnv [] "main" 800 600 sampleParams).miscParams "FSAA" =
      some "4" ∧
    (finalDescription Platform.linux sampleEnv [] "main" 800 600
      sampleParams).miscParams "parentWindowHandle" = some "77" :=
  ⟨(parameters_merge Platform.linux sampleEnv [] "main" 800 600 sampleParams).2.2.2.2.1
      "FSAA" "4" (by decide) (by decide) (by decide),
    (parameters_merge Platform.linux sampleEnv [] "main" 800 600 sampleParams).2.2.2.2.2.2.1
      "parentWindowHandle" (by decide)⟩

end OgreBites
